import Mathlib

/-!
Shallow embedding of the OLAF WhatsApp food-inventory pipeline
(`app.py`, `db.py`, `wa.py`), with the rule parser (`rules.py`, absent
from the repository snapshot) modelled from the specification.

Strings are Lean `String`s; Python `None` is `Option.none`; Python floats
appearing in this code (quantity values, confidence scores) are embedded
as rationals, which is exact for every literal the code compares
(0.8, 0.9, parsed decimals).
-/

namespace Olaf

/-- Python `\s` restricted to its ASCII members (space, tab, newline,
carriage return, form feed, vertical tab) — the only whitespace the
repository's inputs use. -/
def pyIsSpace (c : Char) : Bool :=
  c == ' ' || c == '\t' || c == '\n' || c == '\r' || c == '\x0b' || c == '\x0c'

/-- Python `\d` on ASCII: the digits 0–9. -/
def pyIsDigit (c : Char) : Bool :=
  48 ≤ c.toNat && c.toNat ≤ 57

/-- The character class `[a-zA-Zčćšđž]` of the quantity regex in
`insert_food_item` (db.py line 53): ASCII letters of both cases plus the
five lower-case Croatian accented letters.  Upper-case `ČĆŠĐŽ` are not in
the class. -/
def unitChar (c : Char) : Bool :=
  (97 ≤ c.toNat && c.toNat ≤ 122) || (65 ≤ c.toNat && c.toNat ≤ 90) ||
  c == 'č' || c == 'ć' || c == 'š' || c == 'đ' || c == 'ž'

/-- Python `str.lower` on the characters the unit class can produce:
ASCII upper-case letters are shifted down, everything else (lower-case
ASCII and the already-lower-case accented letters) is unchanged. -/
def pyLowerChar (c : Char) : Char :=
  if 65 ≤ c.toNat ∧ c.toNat ≤ 90 then Char.ofNat (c.toNat + 32) else c

/-- Greedy match of `\d+(?:[.,]\d+)?` at the head of `cs1` (which must
start with a digit): the digit run, then a `.` or `,` followed by a
further digit run when present.  Returns `(group 1, remaining input)`. -/
def numGroup (cs1 : List Char) : List Char × List Char :=
  let d1 := cs1.takeWhile pyIsDigit
  match cs1.dropWhile pyIsDigit with
  | [] => (d1, [])
  | c :: cs2 =>
    if (c == '.' || c == ',') && !(cs2.takeWhile pyIsDigit).isEmpty then
      (d1 ++ c :: cs2.takeWhile pyIsDigit, cs2.dropWhile pyIsDigit)
    else (d1, c :: cs2)

/-- The numeric part of the regex
`^\s*(\d+(?:[.,]\d+)?)\s*([a-zA-Zčćšđž]+)?` (db.py line 53): skip leading
whitespace, require at least one digit, then match the rest of the
numeric group greedily.  `none` models `re.match` returning `None` (no
leading digit after the whitespace). -/
def regexNum (cs : List Char) : Option (List Char × List Char) :=
  let cs1 := cs.dropWhile pyIsSpace
  if (cs1.takeWhile pyIsDigit).isEmpty then none
  else some (numGroup cs1)

/-- Group 2 of the regex: after group 1, skip whitespace and take a
maximal non-empty run of `unitChar`s; the group is `None` when that run
is empty. -/
def regexUnit (rest : List Char) : Option (List Char) :=
  let u := (rest.dropWhile pyIsSpace).takeWhile unitChar
  if u.isEmpty then none else some u

/-- `str.replace(",", ".")` applied to the matched numeric group
(db.py line 55). -/
def commaToDot (g : List Char) : List Char :=
  g.map (fun c => if c == ',' then '.' else c)

/-- Value of a digit string, most significant digit first. -/
def digitsToNat (ds : List Char) : ℕ :=
  ds.foldl (fun a c => 10 * a + (c.toNat - 48)) 0

/-- Python `float(...)` restricted to the strings this code ever feeds
it: an integer or `<digits>.<digits>` decimal, read as an exact rational
(`d1.d2` is `(d1·10^|d2| + d2) / 10^|d2|`).  `none` models the
`ValueError` float would raise on anything else. -/
def parseDec (g : List Char) : Option ℚ :=
  let ip := g.takeWhile pyIsDigit
  let r := g.dropWhile pyIsDigit
  if ip.isEmpty then none
  else
    match r with
    | [] => some (mkRat (digitsToNat ip) 1)
    | c :: fp =>
      if c == '.' && !fp.isEmpty && fp.all pyIsDigit then
        some (mkRat (digitsToNat ip * 10 ^ fp.length + digitsToNat fp) (10 ^ fp.length))
      else none

/-- The quantity normalizer of `insert_food_item` (db.py lines 52–56) on
a non-empty quantity string: apply the regex; on a match, group 1 (with
`,` replaced by `.`) is converted to a number and group 2, if present,
lower-cased. -/
def normalize (raw : String) : Option ℚ × Option String :=
  match regexNum raw.data with
  | none => (none, none)
  | some (g1, rest) =>
    (parseDec (commaToDot g1),
     match regexUnit rest with
     | none => none
     | some u => some (String.mk (u.map pyLowerChar)))

/-- db.py lines 51–56: `qty_value, qty_unit` start as `None, None` and
the regex only runs when `qty_text` is truthy (neither `None` nor the
empty string). -/
def normalizeOpt (qty_text : Option String) : Option ℚ × Option String :=
  match qty_text with
  | none => (none, none)
  | some s => if s.data.isEmpty then (none, none) else normalize s

/-- Whether the raw quantity text has a leading numeric token: after
optional whitespace, the first character is a digit. -/
def hasLeadingNumericToken (s : String) : Bool :=
  match s.data.dropWhile pyIsSpace with
  | c :: _ => pyIsDigit c
  | [] => false

/-- Whether the raw quantity text has a unit token: a leading numeric
token, then after optional whitespace a character of the unit class. -/
def hasUnitToken (s : String) : Bool :=
  match regexNum s.data with
  | none => false
  | some (_, rest) =>
    match rest.dropWhile pyIsSpace with
    | c :: _ => unitChar c
    | [] => false

/-- A row of `user_food_items` as `insert_food_item` inserts it
(db.py lines 58–67).  `Option` fields are nullable columns; `quantity`
is `qty_text or ""`, hence never null. -/
structure Rec where
  user_id : ℕ
  food_name : Option String
  quantity : String
  quantity_value : Option ℚ
  quantity_unit : Option String
  location : Option String
  consumed : Bool
  message_id : Option String
  parsed_by : String
  deriving Repr, DecidableEq

/-- `insert_food_item` (db.py lines 38–67): normalize the quantity text
and build the inserted row.  `name` and `location` are `Option` because
the LLM path can pass `None` through `dict.get`. -/
def insert_food_item (user_id : ℕ) (name : Option String)
    (qty_text : Option String) (location : Option String)
    (message_id : Option String) (parsed_by : String) : Rec :=
  let vu := normalizeOpt qty_text
  { user_id := user_id
    food_name := name
    quantity := qty_text.getD ""
    quantity_value := vu.1
    quantity_unit := vu.2
    location := location
    consumed := false
    message_id := message_id
    parsed_by := parsed_by }

/-- Dict produced by `rules.parse`, with the keys `app.py` reads
(`intent`, `food_name`, `quantity`, `location`, `confidence`). -/
structure ParseResult where
  intent : String
  food_name : Option String
  quantity : Option String
  location : Option String
  confidence : ℚ
  deriving Repr, DecidableEq

/-- The no-match result: intent `unknown`, confidence 0, all fields
empty. -/
def unknownResult : ParseResult :=
  { intent := "unknown", food_name := none, quantity := none,
    location := none, confidence := 0 }

/-- Splitting a character list at whitespace, keeping token order. -/
def tokensOfChars (cs : List Char) : List (List Char) :=
  cs.foldr
    (fun c acc =>
      if pyIsSpace c then [] :: acc
      else
        match acc with
        | t :: rest => (c :: t) :: rest
        | [] => [[c]])
    []

/-- Token split on whitespace, used by the modelled rule templates. -/
def ruleTokens (text : String) : List String :=
  ((tokensOfChars text.data).filter (fun t => !t.isEmpty)).map String.mk

/-- Whether a token is a numeric quantity token (starts with a digit). -/
def numericTok (s : String) : Bool :=
  match s.data with
  | c :: _ => pyIsDigit c
  | [] => false

/-- Whether the text matches the modelled inventory-question pattern. -/
def queryTemplate (text : String) : Bool :=
  (ruleTokens text).contains "popis" || (ruleTokens text).contains "imam"

/-- Whether the text matches the modelled full add template
`<qty> <food> u/na <location>`. -/
def fullAddTemplate (text : String) : Bool :=
  match ruleTokens text with
  | [q, _, p, _] => numericTok q && (p == "u" || p == "na")
  | _ => false

/-- Whether the text matches the modelled partial add template
`<qty> <food>` (no location). -/
def looseAddTemplate (text : String) : Bool :=
  match ruleTokens text with
  | [q, _] => numericTok q
  | _ => false

/-- Whether the text matches any known template of the modelled rule
parser. -/
def matchesKnownTemplate (text : String) : Bool :=
  queryTemplate text || fullAddTemplate text || looseAddTemplate text

/-- Modelled from the spec: `rules.parse`, imported by `app.py` as
`quick_parse`, whose module `rules.py` is not in the repository
snapshot.  Per spec §4.1 it is pure and total; a query pattern returns
intent `query` with confidence ≥ 0.8; an ordered template list extracts
a (quantity, food, location) triple, a full triple scoring 0.9 and a
partial match scoring lower (0.5, below the 0.8 threshold, matching the
spec's fallback-escalation test); no match returns `unknown` with
confidence 0.0 and all fields empty.  Spec §8 fixes the concrete shape
`"2 mlijeka u hladnjak" ↦ add, quantity "2", food "mlijeka",
location "hladnjak", confidence ≥ 0.8`. -/
def quick_parse (text : String) : ParseResult :=
  if queryTemplate text then
    { intent := "query", food_name := none, quantity := none,
      location := none, confidence := mkRat 9 10 }
  else
    match ruleTokens text with
    | [q, f, p, l] =>
      if numericTok q && (p == "u" || p == "na") then
        { intent := "add", food_name := some f, quantity := some q,
          location := some l, confidence := mkRat 9 10 }
      else unknownResult
    | [q, f] =>
      if numericTok q then
        { intent := "add", food_name := some f, quantity := some q,
          location := none, confidence := mkRat 1 2 }
      else unknownResult
    | _ => unknownResult

/-- Python `str.strip()` on the whitespace this system produces. -/
def pyStrip (s : String) : String :=
  String.mk (((s.data.dropWhile pyIsSpace).reverse.dropWhile pyIsSpace).reverse)

/-- Python truthiness of an optional string (`None` and `""` are falsy). -/
def optTruthy (v : Option String) : Bool :=
  match v with
  | none => false
  | some s => !s.data.isEmpty

/-- One element of the fallback classifier's `items` array.  Each field
distinguishes an absent key (outer `none`) from an explicit JSON `null`
(`some none`) from a string value (`some (some s)`), because Python's
`dict.get(key, default)` applies the default only when the key is
absent. -/
structure Item where
  name : Option (Option String)
  quantity : Option (Option String)
  location : Option (Option String)
  deriving Repr, DecidableEq

/-- Outcome of the `oai.chat.completions.create` call plus
`json.loads` (app.py lines 136–147): `unavailable` models any exception
in the call or a response body that is not a JSON object (network
error, timeout, malformed output); `parsed` carries the `action` and
`items` keys of the decoded object. -/
inductive LLMResult where
  | unavailable
  | parsed (action : Option (Option String)) (items : Option (List Item))
  deriving Repr, DecidableEq

/-- Python `item.get(key, default)`: the default fires only when the
key is absent; an explicit `null` value is returned as `None`. -/
def dget (v : Option (Option String)) (d : String) : Option String :=
  match v with
  | none => some d
  | some x => x

/-- Rendering of `item.get(key, default)` inside an f-string: a missing
key renders the default, an explicit `null` renders as `None`, a string
renders itself. -/
def drender (v : Option (Option String)) (d : String) : String :=
  match v with
  | none => d
  | some none => "None"
  | some (some s) => s

/-- Python truthiness of `parsed.get("items")`: a present, non-empty
list. -/
def itemsTruthy (items : Option (List Item)) : Bool :=
  match items with
  | some (_ :: _) => true
  | _ => false

/-- The inbound WhatsApp message as `process_message` reads it:
`msg.get("text", {}).get("body")` and `msg.get("type")`. -/
structure MsgIn where
  textBody : Option String
  mtype : String
  deriving Repr, DecidableEq

/-- Python `not text` for the extracted body: `None` or empty. -/
def textFalsy (v : Option String) : Bool :=
  match v with
  | none => true
  | some s => s.data.isEmpty

/-- Observable outcome of one `process_message` run: the rows inserted
into `user_food_items`, the bodies handed to `wa.send_text` in order
(attempts), the subset that were delivered (the Meta API call
succeeded; `send_text` re-raises on failure), the number of fallback
classifier calls, and whether the background task ended with an
uncaught exception. -/
structure PRun where
  records : List Rec
  attempts : List String
  delivered : List String
  llmCalls : ℕ
  raised : Bool
  deriving Repr, DecidableEq

/-- One `send_text` call (wa.py lines 7–25): the environment `ok`
decides, per attempt index, whether the HTTP post succeeds; on failure
`send_text` logs and re-raises.  Returns the updated run and whether
the call succeeded. -/
def sendStep (ok : ℕ → Bool) (r : PRun) (body : String) : PRun × Bool :=
  let succ := ok r.attempts.length
  ({ r with attempts := r.attempts ++ [body],
            delivered := if succ then r.delivered ++ [body] else r.delivered },
   succ)

/-- A `send_text` call outside any `try` block: a failure propagates
out of the background task (`raised`). -/
def sendOrRaise (ok : ℕ → Bool) (r : PRun) (body : String) : PRun :=
  let sr := sendStep ok r body
  { sr.1 with raised := sr.1.raised || !sr.2 }

/-- The `except` handler of the fallback block (app.py lines 165–167):
send the generic processing-error reply; it is itself outside any
further handler, so its failure propagates. -/
def exceptReply (ok : ℕ → Bool) (r : PRun) : PRun :=
  sendOrRaise ok r "⚠️ Greška u obradi. Pokušaj ponovo."

/-- A `send_text` call inside the `try` block of the fallback path: on
failure control jumps to the `except` handler, which sends the generic
error reply. -/
def sendInTry (ok : ℕ → Bool) (r : PRun) (body : String) : PRun :=
  let sr := sendStep ok r body
  if sr.2 then sr.1 else exceptReply ok sr.1

/-- The success confirmation of the rules path (app.py line 128);
`qp["quantity"] or ""` renders `None` and `""` alike as empty. -/
def rulesReply (qp : ParseResult) : String :=
  pyStrip ("✅ Dodano: " ++ (match qp.quantity with
                             | some s => s
                             | none => "") ++ " "
    ++ (match qp.food_name with | some s => s | none => "None") ++ " → "
    ++ (match qp.location with | some s => s | none => "None"))

/-- The success confirmation of the fallback path (app.py line 160). -/
def llmReply (item : Item) : String :=
  pyStrip ("✅ Dodano: " ++ drender item.quantity "" ++ " "
    ++ drender item.name "" ++ " → " ++ drender item.location "pantry")

/-- The guard of the rules path (app.py line 119): intent `add`, truthy
food name and location, confidence at least 0.8. -/
def rulesCond (qp : ParseResult) : Bool :=
  qp.intent == "add" && optTruthy qp.food_name && optTruthy qp.location
    && decide (mkRat 4 5 ≤ qp.confidence)

/-- Embedding of `process_message` (app.py lines 92–173).  The rule
parser is a parameter, mirroring the `from rules import parse` import
whose module is absent from the snapshot; `oai` is `None` when no API
key is configured (app.py line 32) and otherwise carries the outcome
the one classifier call would produce; `ok` gives each successive
`send_text` attempt's outcome.  Persistence itself is assumed
available: an `insert_food_item` call always succeeds (spec §7 treats
persistence failure as a hard failure of the unit, outside this
model). -/
def process_message (parse : String → ParseResult) (oai : Option LLMResult)
    (ok : ℕ → Bool) (user_id : ℕ) (message_id : String) (msg : MsgIn) : PRun :=
  let r0 : PRun := ⟨[], [], [], 0, false⟩
  if textFalsy msg.textBody && (msg.mtype == "audio") then
    sendOrRaise ok r0 "🎤 Primio sam audio, transkripcija uskoro..."
  else if textFalsy msg.textBody then
    sendOrRaise ok r0 "❓ Nisam razumio poruku"
  else
    let text := msg.textBody.getD ""
    let qp := parse text
    if qp.intent == "query" then
      sendOrRaise ok r0 "📦 Radim popis tvoje hrane... (uskoro)"
    else if rulesCond qp then
      let rec1 := insert_food_item user_id qp.food_name qp.quantity
        qp.location (some message_id) "rules"
      sendOrRaise ok { r0 with records := [rec1] } (rulesReply qp)
    else
      match oai with
      | some llm =>
        let r1 := { r0 with llmCalls := 1 }
        match llm with
        | .unavailable => exceptReply ok r1
        | .parsed action items =>
          if (action == some (some "add")) && itemsTruthy items then
            let item := (items.getD []).headD ⟨none, none, none⟩
            let rec1 := insert_food_item user_id (dget item.name "item")
              (dget item.quantity "unknown") (dget item.location "pantry")
              (some message_id) "llm"
            sendInTry ok { r1 with records := [rec1] } (llmReply item)
          else
            sendInTry ok r1
              "❓ Molim te reci što točno i gdje (škrinja/hladnjak/ostava)?"
      | none =>
        sendOrRaise ok r0 "❓ Molim te budi precizniji: što dodaješ i gdje?"

/-- The persistent tables this core touches: `inbound_messages`
(rows `(message_id, phone_number)`, unique on `message_id`), `users`
(phone number ↦ serial id) and `user_food_items`. -/
structure Db where
  claimed : List (String × String)
  users : List (String × Option String × ℕ)
  items : List Rec
  deriving Repr, DecidableEq

/-- `dedupe_message` (db.py lines 15–27): atomic
`INSERT ... ON CONFLICT (message_id) DO NOTHING RETURNING true`.
Returns `false` and leaves the table unchanged when a row with this
`message_id` already exists; otherwise inserts the pair and returns
`true`. -/
def dedupe_message (message_id phone : String) (db : Db) : Bool × Db :=
  if db.claimed.any (fun row => row.1 == message_id) then (false, db)
  else (true, { db with claimed := db.claimed ++ [(message_id, phone)] })

/-- `get_or_create_user` (db.py lines 29–36): select by phone, else
insert; the serial `RETURNING id` is modelled as one more than the
table size. -/
def get_or_create_user (phone : String) (name : Option String) (db : Db) :
    ℕ × Db :=
  match db.users.find? (fun u => u.1 == phone) with
  | some u => (u.2.2, db)
  | none =>
    let uid := db.users.length + 1
    (uid, { db with users := db.users ++ [(phone, name, uid)] })

/-- Whole-system state: the database plus the cumulative outbound
traffic (bodies attempted and bodies actually delivered). -/
structure World where
  db : Db
  sent : List String
  delivered : List String
  deriving Repr, DecidableEq

/-- The fields the webhook handler extracts from one delivery of a
message (app.py lines 67–72). -/
structure Payload where
  wa_from : String
  message_id : String
  name : Option String
  msg : MsgIn
  deriving Repr, DecidableEq

/-- Embedding of the `inbound` webhook handler from the idempotency
gate on (app.py lines 77–90; signature checking and payload parsing
are transport, out of scope per spec §1): claim the message id, and on
a duplicate return at once, touching nothing; otherwise resolve the
user and run `process_message` (in the source a background task, here
run to completion in sequence).  Returns the handler's JSON status
string and the new world. -/
def inbound (parse : String → ParseResult) (oai : Option LLMResult)
    (ok : ℕ → Bool) (p : Payload) (w : World) : String × World :=
  let ded := dedupe_message p.message_id p.wa_from w.db
  if !ded.1 then ("duplicate", w)
  else
    let gu := get_or_create_user p.wa_from p.name ded.2
    let run := process_message parse oai ok gu.1 p.message_id p.msg
    ("ok",
     { db := { gu.2 with items := gu.2.items ++ run.records },
       sent := w.sent ++ run.attempts,
       delivered := w.delivered ++ run.delivered })

/-- The world after one delivery of payload `p`. -/
def inboundStep (parse : String → ParseResult) (oai : Option LLMResult)
    (ok : ℕ → Bool) (p : Payload) (w : World) : World :=
  (inbound parse oai ok p w).2

/-! Helper lemmas about the regex pieces. -/

theorem takeWhile_all_append {p : Char → Bool} {x : Char} (hx : p x = false)
    (l2 : List Char) :
    ∀ l1 : List Char, (∀ c ∈ l1, p c = true) →
      (l1 ++ x :: l2).takeWhile p = l1 ∧ (l1 ++ x :: l2).dropWhile p = x :: l2
  | [], _ => by
    simp [List.takeWhile_cons, List.dropWhile_cons, hx]
  | a :: t, h1 => by
    have ha : p a = true := h1 a (List.mem_cons_self a t)
    have rec := takeWhile_all_append hx l2 t
      (fun c hc => h1 c (List.mem_cons_of_mem a hc))
    simp [List.takeWhile_cons, List.dropWhile_cons, ha, rec.1, rec.2]

theorem digit_not_comma {c : Char} (h : pyIsDigit c = true) : (c == ',') = false := by
  by_cases hc : c = ','
  · subst hc; exact absurd h (by decide)
  · exact beq_eq_false_iff_ne.mpr hc

theorem commaToDot_digits : ∀ {ds : List Char}, (∀ c ∈ ds, pyIsDigit c = true) →
    commaToDot ds = ds
  | [], _ => rfl
  | a :: t, h => by
    have ha := digit_not_comma (h a (List.mem_cons_self a t))
    have ih := commaToDot_digits (fun c hc => h c (List.mem_cons_of_mem a hc))
    simp only [commaToDot, List.map_cons] at ih ⊢
    rw [ha, ih]
    simp

theorem all_digits_of_takeWhile (l : List Char) :
    ∀ c ∈ l.takeWhile pyIsDigit, pyIsDigit c = true :=
  fun _ hc => List.mem_takeWhile_imp hc

/-- An all-digit, non-empty group parses as an integer. -/
theorem parseDec_int {d1 : List Char} (hall : ∀ c ∈ d1, pyIsDigit c = true)
    (hne : d1 ≠ []) : (parseDec (commaToDot d1)).isSome = true := by
  unfold parseDec
  rw [commaToDot_digits hall, List.takeWhile_eq_self_iff.mpr hall,
    List.dropWhile_eq_nil_iff.mpr hall]
  simp [List.isEmpty_iff, hne]

/-- A `<digits> sep <digits>` group with `sep ∈ {., ,}` parses as a
decimal after the comma replacement. -/
theorem parseDec_decimal {d1 d2 : List Char} (c : Char)
    (hall1 : ∀ x ∈ d1, pyIsDigit x = true) (hne1 : d1 ≠ [])
    (hall2 : ∀ x ∈ d2, pyIsDigit x = true) (hne2 : d2 ≠ [])
    (hc : (c == '.' || c == ',') = true) :
    (parseDec (commaToDot (d1 ++ c :: d2))).isSome = true := by
  have hmapc : (if c == ',' then '.' else c) = '.' := by
    rcases Bool.or_eq_true .. |>.mp hc with h1 | h1
    · by_cases h2 : (c == ',') = true
      · rw [if_pos h2]
      · rw [if_neg h2]; exact beq_iff_eq.mp h1
    · rw [if_pos h1]
  have hsplit : commaToDot (d1 ++ c :: d2) = d1 ++ '.' :: d2 := by
    show List.map _ (d1 ++ c :: d2) = _
    rw [List.map_append, List.map_cons]
    have e1 : List.map (fun x => if x == ',' then '.' else x) d1 = d1 :=
      commaToDot_digits hall1
    have e2 : List.map (fun x => if x == ',' then '.' else x) d2 = d2 :=
      commaToDot_digits hall2
    rw [e1, e2, hmapc]
  rw [hsplit]
  unfold parseDec
  have htw := takeWhile_all_append (p := pyIsDigit) (x := '.') (by decide) d2 d1 hall1
  rw [htw.1, htw.2]
  have h1 : d1.isEmpty = false := by simp [List.isEmpty_iff, hne1]
  have h2 : d2.isEmpty = false := by simp [List.isEmpty_iff, hne2]
  have hall2b : d2.all pyIsDigit = true := List.all_eq_true.mpr hall2
  simp [h1, h2, hall2b]

/-- Core of C7: every numeric group `numGroup` can emit parses after the
comma replacement. -/
theorem parseDec_of_numGroup {cs1 : List Char}
    (hne : cs1.takeWhile pyIsDigit ≠ []) :
    (parseDec (commaToDot (numGroup cs1).1)).isSome = true := by
  unfold numGroup
  rcases hr : cs1.dropWhile pyIsDigit with _ | ⟨c, cs2⟩
  · simp only [hr]
    exact parseDec_int (all_digits_of_takeWhile cs1) hne
  · simp only [hr]
    by_cases hcond : ((c == '.' || c == ',') && !(cs2.takeWhile pyIsDigit).isEmpty) = true
    · rw [if_pos hcond]
      have hcd : (c == '.' || c == ',') = true := (Bool.and_eq_true .. |>.mp hcond).1
      have hd2 : cs2.takeWhile pyIsDigit ≠ [] := by
        have := (Bool.and_eq_true .. |>.mp hcond).2
        simp only [Bool.not_eq_eq_eq_not, Bool.not_true, List.isEmpty_eq_false] at this
        exact this
      exact parseDec_decimal c (all_digits_of_takeWhile cs1) hne
        (all_digits_of_takeWhile cs2) hd2 hcd
    · rw [if_neg hcond]
      exact parseDec_int (all_digits_of_takeWhile cs1) hne

/-- Lifting of the previous lemma through `regexNum`. -/
theorem parseDec_of_regexNum {cs g rest : List Char}
    (h : regexNum cs = some (g, rest)) :
    (parseDec (commaToDot g)).isSome = true := by
  unfold regexNum at h
  by_cases hd : ((cs.dropWhile pyIsSpace).takeWhile pyIsDigit).isEmpty = true
  · rw [if_pos hd] at h
    exact absurd h (by simp)
  · rw [if_neg hd] at h
    have hg : (numGroup (cs.dropWhile pyIsSpace)).1 = g := by
      rw [Option.some_inj.mp h]
    rw [← hg]
    exact parseDec_of_numGroup (by simpa [List.isEmpty_iff] using hd)

theorem regexNum_none_iff (s : String) :
    regexNum s.data = none ↔ hasLeadingNumericToken s = false := by
  unfold regexNum hasLeadingNumericToken
  rcases hd : s.data.dropWhile pyIsSpace with _ | ⟨c, t⟩
  · simp
  · simp only [List.takeWhile_cons]
    by_cases hc : pyIsDigit c = true <;> simp [hc]

theorem normalize_fst_none_iff (s : String) :
    (normalize s).1 = none ↔ hasLeadingNumericToken s = false := by
  unfold normalize
  cases h : regexNum s.data with
  | none =>
    have hl : hasLeadingNumericToken s = false := (regexNum_none_iff s).mp h
    simp [hl]
  | some gr =>
    obtain ⟨g, rest⟩ := gr
    simp only
    constructor
    · intro hv
      have hs := parseDec_of_regexNum h
      rw [hv] at hs
      exact absurd hs (by simp)
    · intro hl
      have hn : regexNum s.data = none := (regexNum_none_iff s).mpr hl
      rw [h] at hn
      exact absurd hn (by simp)

theorem normalize_snd_none_iff (s : String) :
    (normalize s).2 = none ↔ hasUnitToken s = false := by
  unfold normalize hasUnitToken
  cases h : regexNum s.data with
  | none => simp
  | some gr =>
    obtain ⟨g, rest⟩ := gr
    simp only
    unfold regexUnit
    cases hr : rest.dropWhile pyIsSpace with
    | nil => simp
    | cons c t =>
      rw [List.takeWhile_cons]
      by_cases hc : unitChar c = true <;> simp [hc]

/-! Claim theorems about the quantity normalizer. -/

/-- C5: the quantity normalizer satisfies the four reference cases of
spec §8 — `normalize "2.5kg" = (2.5, "kg")`,
`normalize "3,5 komada" = (3.5, "komada")`, and empty or non-numeric
input gives `(None, None)` — parsing a leading integer or decimal with
`.` or `,` as decimal separator, followed by an optional unit token. -/
theorem c5_normalize_reference_cases :
    normalize "2.5kg" = (some ((5 : ℚ) / 2), some "kg") ∧
    normalize "3,5 komada" = (some ((7 : ℚ) / 2), some "komada") ∧
    normalize "" = (none, none) ∧
    normalize "abc" = (none, none) := by
  refine ⟨?_, ?_, by decide, by decide⟩
  · have h : normalize "2.5kg" = (some (mkRat 25 10), some "kg") := by decide
    rw [h, show mkRat 25 10 = (5 : ℚ) / 2 by rw [Rat.mkRat_eq_div]; norm_num]
  · have h : normalize "3,5 komada" = (some (mkRat 35 10), some "komada") := by
      decide
    rw [h, show mkRat 35 10 = (7 : ℚ) / 2 by rw [Rat.mkRat_eq_div]; norm_num]

/-- C7: the normalizer never fails on malformed input — when the regex
does not match it returns `(None, None)`, and whenever the regex does
match, the `float(...)` conversion of the matched group (with `,`
replaced by `.`) succeeds. -/
theorem c7_normalize_never_fails (raw : String) :
    (regexNum raw.data = none → normalize raw = (none, none)) ∧
    (∀ g rest : List Char, regexNum raw.data = some (g, rest) →
      (parseDec (commaToDot g)).isSome = true) := by
  constructor
  · intro h
    unfold normalize
    rw [h]
  · intro g rest h
    exact parseDec_of_regexNum h

/-- Witness for C7 at the concrete input `"2,5 kg"`. -/
theorem c7_normalize_never_fails_witness :
    regexNum "2,5 kg".data = some (['2', ',', '5'], [' ', 'k', 'g']) ∧
    (parseDec (commaToDot ['2', ',', '5'])).isSome = true :=
  ⟨by decide,
   (c7_normalize_never_fails "2,5 kg").2 ['2', ',', '5'] [' ', 'k', 'g'] (by decide)⟩

/-- C8 as stated is false: the unit character class of the regex
(db.py line 53) contains no upper-case accented letters, so for
`"2 ČAŠE"` — a leading number followed by an alphabetic unit token in
upper case — the normalizer returns no unit at all rather than the
lower-cased token `"čaše"`. -/
theorem c8_counterexample_uppercase_accented :
    normalize "2 ČAŠE" = (some 2, none) ∧
    (normalize "2 ČAŠE").2 ≠ some "čaše" := by
  constructor
  · have h : normalize "2 ČAŠE" = (some (mkRat 2 1), none) := by decide
    rw [h, show mkRat 2 1 = (2 : ℚ) by rw [Rat.mkRat_eq_div]; norm_num]
  · decide

/-- C8 amended: when the leading number is followed (after optional
whitespace) by a token drawn from the regex's unit class — ASCII
letters of either case and the lower-case accented letters `čćšđž` —
the normalizer returns the maximal such token lower-cased (ASCII
upper-case mapped down, the rest unchanged), with no unit-vocabulary
validation or conversion; a unit containing upper-case accented letters
is cut at the first such character, and absent if it starts with one. -/
theorem c8_amended_unit_lowercased (s : String) (g rest : List Char)
    (h1 : regexNum s.data = some (g, rest))
    (c : Char) (cs2 : List Char)
    (h2 : rest.dropWhile pyIsSpace = c :: cs2)
    (h3 : unitChar c = true) :
    (normalize s).2 =
      some (String.mk ((c :: cs2.takeWhile unitChar).map pyLowerChar)) := by
  unfold normalize
  rw [h1]
  simp only
  unfold regexUnit
  rw [h2, List.takeWhile_cons, h3]
  simp

/-- Witness for C8's amended statement at `"2.5KG"`: the ASCII
upper-case unit is matched and lower-cased. -/
theorem c8_amended_unit_lowercased_witness :
    regexNum "2.5KG".data = some (['2', '.', '5'], ['K', 'G']) ∧
    (normalize "2.5KG").2 = some "kg" := by
  refine ⟨by decide, ?_⟩
  have h := c8_amended_unit_lowercased "2.5KG" ['2', '.', '5'] ['K', 'G']
    (by decide) 'K' ['G'] (by decide) (by decide)
  rw [h]
  decide

/-- C10: every row built by `insert_food_item` stores the raw quantity
text as a string, never null (the empty string when the given quantity
text is `None` or empty), stores `consumed` as false, and has
`quantity_value`/`quantity_unit` null exactly when the stored raw text
has no leading numeric token, respectively no unit token. -/
theorem c10_insert_food_item_invariants (user_id : ℕ)
    (name qty_text location message_id : Option String) (parsed_by : String) :
    (insert_food_item user_id name qty_text location message_id parsed_by).quantity
      = qty_text.getD "" ∧
    (insert_food_item user_id name qty_text location message_id parsed_by).consumed
      = false ∧
    ((insert_food_item user_id name qty_text location message_id
        parsed_by).quantity_value = none ↔
      hasLeadingNumericToken (insert_food_item user_id name qty_text location
        message_id parsed_by).quantity = false) ∧
    ((insert_food_item user_id name qty_text location message_id
        parsed_by).quantity_unit = none ↔
      hasUnitToken (insert_food_item user_id name qty_text location
        message_id parsed_by).quantity = false) := by
  refine ⟨rfl, rfl, ?_, ?_⟩
  · show (normalizeOpt qty_text).1 = none ↔
      hasLeadingNumericToken (qty_text.getD "") = false
    cases qty_text with
    | none =>
      simp only [normalizeOpt, Option.getD_none]
      simp [show hasLeadingNumericToken "" = false from by decide]
    | some s =>
      simp only [normalizeOpt, Option.getD_some]
      by_cases hs : s.data.isEmpty = true
      · have hnil : s.data = [] := List.isEmpty_iff.mp hs
        rw [if_pos hs]
        simp [hasLeadingNumericToken, hnil]
      · rw [if_neg hs]
        exact normalize_fst_none_iff s
  · show (normalizeOpt qty_text).2 = none ↔
      hasUnitToken (qty_text.getD "") = false
    cases qty_text with
    | none =>
      simp only [normalizeOpt, Option.getD_none]
      simp [show hasUnitToken "" = false from by decide]
    | some s =>
      simp only [normalizeOpt, Option.getD_some]
      by_cases hs : s.data.isEmpty = true
      · have hnil : s.data = [] := List.isEmpty_iff.mp hs
        rw [if_pos hs]
        simp [hasUnitToken, regexNum, hnil]
      · rw [if_neg hs]
        exact normalize_snd_none_iff s

/-! Claim theorems about the rule parser model. -/

/-- C9 (spec-modelled): the rule-based parse is a pure total Lean
function, and for every text matching no known template it returns
intent `unknown` with confidence 0.0 and all extracted fields empty. -/
theorem c9_quick_parse_unknown_on_no_match (t : String)
    (h : matchesKnownTemplate t = false) :
    quick_parse t = unknownResult := by
  simp only [matchesKnownTemplate, Bool.or_eq_false_iff] at h
  obtain ⟨⟨hq, hfull⟩, hpart⟩ := h
  unfold quick_parse
  rw [hq]
  simp only [Bool.false_eq_true, if_false]
  unfold fullAddTemplate at hfull
  unfold looseAddTemplate at hpart
  rcases hrt : ruleTokens t with _ | ⟨a, _ | ⟨b, _ | ⟨c1, _ | ⟨d, _ | ⟨e, rest⟩⟩⟩⟩⟩ <;>
    rw [hrt] at hfull hpart <;> simp_all

/-- Witness for C9 at a concrete five-token text matching no template. -/
theorem c9_quick_parse_unknown_on_no_match_witness :
    matchesKnownTemplate "pozdrav kako si danas prijatelju" = false ∧
    quick_parse "pozdrav kako si danas prijatelju" = unknownResult :=
  ⟨by decide, c9_quick_parse_unknown_on_no_match _ (by decide)⟩

/-! Evaluation lemmas for the send combinators on a fresh run state. -/

theorem sendOrRaise_eval (ok : ℕ → Bool) (rcds : List Rec) (llm : ℕ) (b : String) :
    sendOrRaise ok ⟨rcds, [], [], llm, false⟩ b =
      ⟨rcds, [b], if ok 0 then [b] else [], llm, !ok 0⟩ := by
  unfold sendOrRaise sendStep
  by_cases h : ok 0 = true <;> simp [h]

theorem sendInTry_eval (ok : ℕ → Bool) (rcds : List Rec) (llm : ℕ) (b : String) :
    sendInTry ok ⟨rcds, [], [], llm, false⟩ b =
      if ok 0 then ⟨rcds, [b], [b], llm, false⟩
      else ⟨rcds, [b, "⚠️ Greška u obradi. Pokušaj ponovo."],
            if ok 1 then ["⚠️ Greška u obradi. Pokušaj ponovo."] else [],
            llm, !ok 1⟩ := by
  unfold sendInTry exceptReply sendOrRaise sendStep
  by_cases h0 : ok 0 = true <;> by_cases h1 : ok 1 = true <;> simp [h0, h1]

/-- Reduction of `process_message` to the fallback block, under the
hypotheses that the message has text, the parse is not a query and the
rules guard fails. -/
theorem process_message_fallback (parse : String → ParseResult)
    (oai : Option LLMResult) (ok : ℕ → Bool) (uid : ℕ) (mid : String)
    (msg : MsgIn)
    (ht : textFalsy msg.textBody = false)
    (hq : ((parse (msg.textBody.getD "")).intent == "query") = false)
    (hr : rulesCond (parse (msg.textBody.getD "")) = false) :
    process_message parse oai ok uid mid msg =
      match oai with
      | some llm =>
        match llm with
        | .unavailable => exceptReply ok ⟨[], [], [], 1, false⟩
        | .parsed action items =>
          if (action == some (some "add")) && itemsTruthy items then
            sendInTry ok ⟨[insert_food_item uid
              (dget ((items.getD []).headD ⟨none, none, none⟩).name "item")
              (dget ((items.getD []).headD ⟨none, none, none⟩).quantity "unknown")
              (dget ((items.getD []).headD ⟨none, none, none⟩).location "pantry")
              (some mid) "llm"], [], [], 1, false⟩
              (llmReply ((items.getD []).headD ⟨none, none, none⟩))
          else
            sendInTry ok ⟨[], [], [], 1, false⟩
              "❓ Molim te reci što točno i gdje (škrinja/hladnjak/ostava)?"
      | none => sendOrRaise ok ⟨[], [], [], 0, false⟩
          "❓ Molim te budi precizniji: što dodaješ i gdje?" := by
  unfold process_message
  simp only [ht, Bool.false_and, Bool.false_eq_true, if_false]
  simp only [hq, hr, Bool.false_eq_true, if_false]

/-! Claim theorems about the dispatcher. -/

/-- C3 fails as stated: on the rules path the success confirmation is
sent outside any exception handler, so when every outbound send fails
the record is persisted, one send is attempted, and no reply is ever
delivered — a persisted record without a corresponding outbound
reply. -/
theorem c3_counterexample_record_without_delivered_reply :
    (process_message quick_parse none (fun _ => false) 7 "m1"
      ⟨some "2 mlijeka u hladnjak", "text"⟩).records.length = 1 ∧
    (process_message quick_parse none (fun _ => false) 7 "m1"
      ⟨some "2 mlijeka u hladnjak", "text"⟩).delivered = [] ∧
    (process_message quick_parse none (fun _ => false) 7 "m1"
      ⟨some "2 mlijeka u hladnjak", "text"⟩).attempts.length = 1 ∧
    (process_message quick_parse none (fun _ => false) 7 "m1"
      ⟨some "2 mlijeka u hladnjak", "text"⟩).raised = true := by
  decide

/-- C6 fails as stated: a field that the model returns as an explicit
JSON `null` bypasses the `dict.get` default, so the persisted record
can carry null `food_name` and `location` (the quantity text column
degrades to the empty string). -/
theorem c6_counterexample_null_passthrough :
    ((process_message quick_parse
        (some (.parsed (some (some "add")) (some [⟨some none, some none, some none⟩])))
        (fun _ => true) 7 "m1" ⟨some "nejasno", "text"⟩).records.map
      (fun x => x.food_name)) = [none] ∧
    ((process_message quick_parse
        (some (.parsed (some (some "add")) (some [⟨some none, some none, some none⟩])))
        (fun _ => true) 7 "m1" ⟨some "nejasno", "text"⟩).records.map
      (fun x => x.location)) = [none] ∧
    ((process_message quick_parse
        (some (.parsed (some (some "add")) (some [⟨some none, some none, some none⟩])))
        (fun _ => true) 7 "m1" ⟨some "nejasno", "text"⟩).records.map
      (fun x => x.quantity)) = [""] := by
  decide

/-- C2: for every text message, when the rule parse yields intent `add`
with confidence ≥ 0.8 and truthy `food_name` and `location`, the
dispatcher persists exactly the rules-sourced record, sends the success
confirmation, and makes zero fallback classifier calls; otherwise,
when a fallback classifier is configured and the intent is not `query`,
it makes exactly one fallback classifier call. -/
theorem c2_rules_path_and_fallback_escalation (parse : String → ParseResult)
    (oai : Option LLMResult) (ok : ℕ → Bool) (uid : ℕ) (mid : String)
    (msg : MsgIn) (ht : textFalsy msg.textBody = false) :
    (rulesCond (parse (msg.textBody.getD "")) = true →
      (process_message parse oai ok uid mid msg).records =
        [insert_food_item uid (parse (msg.textBody.getD "")).food_name
          (parse (msg.textBody.getD "")).quantity
          (parse (msg.textBody.getD "")).location (some mid) "rules"] ∧
      (process_message parse oai ok uid mid msg).attempts =
        [rulesReply (parse (msg.textBody.getD ""))] ∧
      (process_message parse oai ok uid mid msg).llmCalls = 0) ∧
    (rulesCond (parse (msg.textBody.getD "")) = false →
      ((parse (msg.textBody.getD "")).intent == "query") = false →
      oai.isSome = true →
      (process_message parse oai ok uid mid msg).llmCalls = 1) := by
  constructor
  · intro hcond
    have h4 := hcond
    simp only [rulesCond, Bool.and_eq_true] at h4
    obtain ⟨⟨⟨h1, _⟩, _⟩, _⟩ := h4
    have hq : ((parse (msg.textBody.getD "")).intent == "query") = false := by
      rw [beq_eq_false_iff_ne]
      intro hc
      rw [hc] at h1
      exact absurd h1 (by decide)
    unfold process_message
    simp only [ht, Bool.false_and, Bool.false_eq_true, if_false]
    simp only [hq, Bool.false_eq_true, if_false, hcond, if_true]
    rw [sendOrRaise_eval]
    by_cases h0 : ok 0 = true <;> simp [h0]
  · intro hr hq hoai
    rcases oai with _ | llm
    · simp at hoai
    · rw [process_message_fallback parse (some llm) ok uid mid msg ht hq hr]
      rcases llm with _ | ⟨action, items⟩
      · unfold exceptReply
        rw [sendOrRaise_eval]
      · dsimp only
        split
        · rw [sendInTry_eval]
          by_cases h0 : ok 0 = true <;> simp [h0]
        · rw [sendInTry_eval]
          by_cases h0 : ok 0 = true <;> simp [h0]

/-- Witness for C2 at the spec's concrete scenarios: the rules path on
`"2 mlijeka u hladnjak"` persists via rules with zero classifier calls,
and an unclear two-token message with a classifier configured makes
exactly one call. -/
theorem c2_rules_path_and_fallback_escalation_witness :
    ((process_message quick_parse none (fun _ => true) 7 "m1"
        ⟨some "2 mlijeka u hladnjak", "text"⟩).records =
      [insert_food_item 7 (quick_parse "2 mlijeka u hladnjak").food_name
        (quick_parse "2 mlijeka u hladnjak").quantity
        (quick_parse "2 mlijeka u hladnjak").location (some "m1") "rules"] ∧
      (process_message quick_parse none (fun _ => true) 7 "m1"
        ⟨some "2 mlijeka u hladnjak", "text"⟩).llmCalls = 0) ∧
    (process_message quick_parse (some .unavailable) (fun _ => true) 7 "m2"
        ⟨some "nekakva zbrka", "text"⟩).llmCalls = 1 := by
  have hA := (c2_rules_path_and_fallback_escalation quick_parse none
    (fun _ => true) 7 "m1" ⟨some "2 mlijeka u hladnjak", "text"⟩
    (by decide)).1 (by decide)
  have hB := (c2_rules_path_and_fallback_escalation quick_parse
    (some .unavailable) (fun _ => true) 7 "m2" ⟨some "nekakva zbrka", "text"⟩
    (by decide)).2 (by decide) (by decide) (by decide)
  exact ⟨⟨hA.1, hA.2.2⟩, hB⟩

/-- C3 amended: every processed message yields at most one persisted
record, at most one delivered reply and at most two send attempts, and
a persisted record always has at least one reply attempt — but, as the
counterexample shows, not necessarily a delivered reply when the
confirmation send fails. -/
theorem c3_amended_record_reply_bounds (parse : String → ParseResult)
    (oai : Option LLMResult) (ok : ℕ → Bool) (uid : ℕ) (mid : String)
    (msg : MsgIn) :
    (process_message parse oai ok uid mid msg).records.length ≤ 1 ∧
    (process_message parse oai ok uid mid msg).delivered.length ≤ 1 ∧
    (process_message parse oai ok uid mid msg).records.length ≤
      (process_message parse oai ok uid mid msg).attempts.length ∧
    (process_message parse oai ok uid mid msg).attempts.length ≤ 2 := by
  unfold process_message
  dsimp only
  split
  · rw [sendOrRaise_eval]; by_cases h0 : ok 0 = true <;> simp [h0]
  · split
    · rw [sendOrRaise_eval]; by_cases h0 : ok 0 = true <;> simp [h0]
    · split
      · rw [sendOrRaise_eval]; by_cases h0 : ok 0 = true <;> simp [h0]
      · split
        · rw [sendOrRaise_eval]; by_cases h0 : ok 0 = true <;> simp [h0]
        · split
          · split
            · show (exceptReply ok ⟨[], [], [], 1, false⟩).records.length ≤ 1 ∧ _
              unfold exceptReply
              rw [sendOrRaise_eval]; by_cases h0 : ok 0 = true <;> simp [h0]
            · split
              · rw [sendInTry_eval]
                by_cases h0 : ok 0 = true <;> by_cases h1 : ok 1 = true <;>
                  simp [h0, h1]
              · rw [sendInTry_eval]
                by_cases h0 : ok 0 = true <;> by_cases h1 : ok 1 = true <;>
                  simp [h0, h1]
          · rw [sendOrRaise_eval]; by_cases h0 : ok 0 = true <;> simp [h0]

/-- C4: whenever the fallback classifier call fails (network error or
output that does not parse as the required JSON shape, both modelled by
`LLMResult.unavailable`), the dispatcher attempts exactly one reply —
the generic processing-error message, not the clarification prompt —
and persists zero records, having made its single classifier call. -/
theorem c4_classifier_failure_generic_error (parse : String → ParseResult)
    (ok : ℕ → Bool) (uid : ℕ) (mid : String) (msg : MsgIn)
    (ht : textFalsy msg.textBody = false)
    (hq : ((parse (msg.textBody.getD "")).intent == "query") = false)
    (hr : rulesCond (parse (msg.textBody.getD "")) = false) :
    (process_message parse (some .unavailable) ok uid mid msg).records = [] ∧
    (process_message parse (some .unavailable) ok uid mid msg).attempts =
      ["⚠️ Greška u obradi. Pokušaj ponovo."] ∧
    (process_message parse (some .unavailable) ok uid mid msg).llmCalls = 1 := by
  rw [process_message_fallback parse (some .unavailable) ok uid mid msg ht hq hr]
  unfold exceptReply
  rw [sendOrRaise_eval]
  simp

/-- Witness for C4 at a concrete unclear message. -/
theorem c4_classifier_failure_generic_error_witness :
    (process_message quick_parse (some .unavailable) (fun _ => true) 7 "m1"
      ⟨some "štogod nejasno", "text"⟩).records = [] ∧
    (process_message quick_parse (some .unavailable) (fun _ => true) 7 "m1"
      ⟨some "štogod nejasno", "text"⟩).attempts =
      ["⚠️ Greška u obradi. Pokušaj ponovo."] ∧
    (process_message quick_parse (some .unavailable) (fun _ => true) 7 "m1"
      ⟨some "štogod nejasno", "text"⟩).llmCalls = 1 :=
  c4_classifier_failure_generic_error quick_parse (fun _ => true) 7 "m1"
    ⟨some "štogod nejasno", "text"⟩ (by decide) (by decide) (by decide)

/-- C6 amended: when the fallback classifier returns action `add` with
a non-empty items list, exactly one record is persisted, built from the
first item only (all further items are discarded); a field whose key is
absent is replaced by its fixed default (`"item"`, `"unknown"`,
`"pantry"`), but a field returned as an explicit JSON `null` bypasses
the default and is persisted as null (for the quantity, the stored raw
text degrades to the empty string). -/
theorem c6_amended_first_item_with_defaults (parse : String → ParseResult)
    (ok : ℕ → Bool) (uid : ℕ) (mid : String) (msg : MsgIn)
    (item : Item) (rest : List Item)
    (ht : textFalsy msg.textBody = false)
    (hq : ((parse (msg.textBody.getD "")).intent == "query") = false)
    (hr : rulesCond (parse (msg.textBody.getD "")) = false) :
    (process_message parse
        (some (.parsed (some (some "add")) (some (item :: rest))))
        ok uid mid msg).records =
      [insert_food_item uid (dget item.name "item")
        (dget item.quantity "unknown") (dget item.location "pantry")
        (some mid) "llm"] ∧
    (item.name = none → dget item.name "item" = some "item") ∧
    (item.quantity = none → dget item.quantity "unknown" = some "unknown") ∧
    (item.location = none → dget item.location "pantry" = some "pantry") ∧
    (item.name = some none →
      (insert_food_item uid (dget item.name "item")
        (dget item.quantity "unknown") (dget item.location "pantry")
        (some mid) "llm").food_name = none) := by
  refine ⟨?_, fun h => by rw [h]; rfl, fun h => by rw [h]; rfl,
    fun h => by rw [h]; rfl,
    fun h => by rw [show dget item.name "item" = none from by rw [h]; rfl]; rfl⟩
  rw [process_message_fallback parse _ ok uid mid msg ht hq hr]
  dsimp only
  rw [if_pos (by simp [itemsTruthy])]
  rw [sendInTry_eval]
  by_cases h0 : ok 0 = true <;> simp [h0]

/-- Witness for C6's amended statement: a two-item reply persists only
the first item, with defaults for its absent name and location. -/
theorem c6_amended_first_item_with_defaults_witness :
    (process_message quick_parse
        (some (.parsed (some (some "add"))
          (some [⟨none, some (some "2kg"), none⟩, ⟨some (some "x"), none, none⟩])))
        (fun _ => true) 7 "m1" ⟨some "nejasno", "text"⟩).records =
      [insert_food_item 7 (some "item") (some "2kg") (some "pantry")
        (some "m1") "llm"] := by
  have h := (c6_amended_first_item_with_defaults quick_parse (fun _ => true)
    7 "m1" ⟨some "nejasno", "text"⟩ ⟨none, some (some "2kg"), none⟩
    [⟨some (some "x"), none, none⟩] (by decide) (by decide) (by decide)).1
  rw [h]
  rfl

/-- C1: `dedupe_message` returns `false` exactly when a row with the
given message identifier already exists in `inbound_messages`, and for
a message whose identifier is already claimed, every redelivery —
regardless of how many times — returns status `"duplicate"` and leaves
the world unchanged: zero inventory records persisted and zero outbound
replies. -/
theorem c1_dedupe_short_circuits_redelivery (parse : String → ParseResult)
    (oai : Option LLMResult) (ok : ℕ → Bool) (p : Payload) (w : World)
    (mid phone : String) (db : Db)
    (h : p.message_id ∈ w.db.claimed.map Prod.fst) :
    ((dedupe_message mid phone db).1 = false ↔ mid ∈ db.claimed.map Prod.fst) ∧
    (inbound parse oai ok p w).1 = "duplicate" ∧
    (∀ n : ℕ, (inboundStep parse oai ok p)^[n] w = w) := by
  have key : ∀ (m ph : String) (d : Db),
      (dedupe_message m ph d).1 = false ↔ m ∈ d.claimed.map Prod.fst := by
    intro m ph d
    unfold dedupe_message
    by_cases ha : d.claimed.any (fun row => row.1 == m) = true
    · rw [if_pos ha]
      constructor
      · intro _
        rw [List.any_eq_true] at ha
        obtain ⟨x, hx, hbeq⟩ := ha
        exact List.mem_map.mpr ⟨x, hx, beq_iff_eq.mp hbeq⟩
      · intro _
        rfl
    · rw [if_neg ha]
      constructor
      · intro hfalse
        exact absurd hfalse (by simp)
      · intro hmem
        exfalso
        apply ha
        rw [List.any_eq_true]
        obtain ⟨x, hx, hfst⟩ := List.mem_map.mp hmem
        exact ⟨x, hx, beq_iff_eq.mpr hfst⟩
  have hdup : (dedupe_message p.message_id p.wa_from w.db).1 = false :=
    (key _ _ _).mpr h
  refine ⟨key mid phone db, ?_, fun n => Function.iterate_fixed ?_ n⟩
  · unfold inbound
    simp [hdup]
  · unfold inboundStep inbound
    simp [hdup]

/-- Witness for C1: with `"m1"` already claimed, a lookup reports the
duplicate and three further redeliveries leave the world untouched. -/
theorem c1_dedupe_short_circuits_redelivery_witness :
    ((dedupe_message "m1" "p2" ⟨[("m1", "p1")], [], []⟩).1 = false ↔
      "m1" ∈ (⟨[("m1", "p1")], [], []⟩ : Db).claimed.map Prod.fst) ∧
    (inbound quick_parse none (fun _ => true)
      ⟨"p2", "m1", none, ⟨some "2 mlijeka u hladnjak", "text"⟩⟩
      ⟨⟨[("m1", "p1")], [], []⟩, [], []⟩).1 = "duplicate" ∧
    (inboundStep quick_parse none (fun _ => true)
      ⟨"p2", "m1", none, ⟨some "2 mlijeka u hladnjak", "text"⟩⟩)^[3]
      ⟨⟨[("m1", "p1")], [], []⟩, [], []⟩ = ⟨⟨[("m1", "p1")], [], []⟩, [], []⟩ := by
  have h := c1_dedupe_short_circuits_redelivery quick_parse none (fun _ => true)
    ⟨"p2", "m1", none, ⟨some "2 mlijeka u hladnjak", "text"⟩⟩
    ⟨⟨[("m1", "p1")], [], []⟩, [], []⟩ "m1" "p2" ⟨[("m1", "p1")], [], []⟩
    (by decide)
  exact ⟨h.1, h.2.1, h.2.2 3⟩

end Olaf
